import Mathlib

/-!
Shallow embedding of the College-Attendance-Analyser repository
(`src/utils/attendance_calc.py` and `src/utils/pdf_extractor.py`) together
with theorems settling the frozen claims about its specification.

Python numeric types are modelled on exact arithmetic: class counts are
`ℕ` (they are parsed from digit strings or passed as non-negative ints),
percentages are `ℚ`, and the `upcoming_classes` argument is `ℤ` (the code
explicitly guards `upcoming_classes <= 0`).
-/

/-- Result type of `calculate_classes_needed`: the Python function returns
either an `int` or the sentinel `float('inf')`. -/
inductive ClassesNeeded where
  | count (n : ℤ)
  | infinite
  deriving DecidableEq

/-- Embedding of `calculate_classes_needed` from `src/utils/attendance_calc.py`.
The `100 - target_percentage = 0` branch models the `except ZeroDivisionError`
handler, which the source reaches exactly when the divisor of the formula is
zero and which returns `float('inf')`. -/
def calculate_classes_needed (current_present current_total : ℕ)
    (target_percentage : ℚ) : ClassesNeeded :=
  if current_total = 0 then .count 0
  else
    let current_percentage : ℚ := (current_present : ℚ) / current_total * 100
    if target_percentage ≤ current_percentage then .count 0
    else if target_percentage = 100 ∧ current_percentage < 100 then .infinite
    else if 100 - target_percentage = 0 then .infinite
    else
      let classes_needed : ℤ :=
        ⌈(target_percentage * current_total - 100 * current_present) /
          (100 - target_percentage)⌉
      if classes_needed < 0 ∨ 1000 < classes_needed then .count 0
      else .count classes_needed

/-- Variant of `calculate_classes_needed` with the `ZeroDivisionError` handler branch
deleted; used to express that the handler is unreachable. -/
def calculate_classes_needed_noCatch (current_present current_total : ℕ)
    (target_percentage : ℚ) : ClassesNeeded :=
  if current_total = 0 then .count 0
  else
    let current_percentage : ℚ := (current_present : ℚ) / current_total * 100
    if target_percentage ≤ current_percentage then .count 0
    else if target_percentage = 100 ∧ current_percentage < 100 then .infinite
    else
      let classes_needed : ℤ :=
        ⌈(target_percentage * current_total - 100 * current_present) /
          (100 - target_percentage)⌉
      if classes_needed < 0 ∨ 1000 < classes_needed then .count 0
      else .count classes_needed

/-- Embedding of `calculate_classes_can_miss` from
`src/utils/attendance_calc.py`.  The source's final `except Exception`
handler guards pure arithmetic and cannot fire, so it has no branch here. -/
def calculate_classes_can_miss (current_present current_total : ℕ)
    (target_percentage : ℚ) (upcoming_classes : ℤ) : ℤ :=
  if current_total = 0 then upcoming_classes
  else
    let current_percentage : ℚ := (current_present : ℚ) / current_total * 100
    if current_percentage < target_percentage then 0
    else if upcoming_classes ≤ 0 then 0
    else
      let future_total : ℚ := (current_total : ℚ) + upcoming_classes
      let future_present : ℚ := (current_present : ℚ) + upcoming_classes
      let max_skip : ℤ := ⌊future_present - target_percentage * future_total / 100⌋
      max 0 (min max_skip upcoming_classes)

/-!
Embedding of `src/utils/pdf_extractor.py`.

`extract_attendance_data` is modelled from the point where the text of the
PDF has been assembled (`pdfplumber` is external I/O; any exception it throws
is caught by the function's outermost handler, which returns the empty
result, exactly like the empty-text early return modelled here).  Python
strings are `List Char`/`String`; the regular expressions of the source are
implemented as explicit scanners over `List Char`, reproducing the
backtracking order of the `re` module (greedy quantifiers try longest first,
the lazy group of the row pattern tries shortest first, alternatives go left
to right, `re.search` takes the leftmost match).  Character classes use the
ASCII fragment of Python's semantics. -/

/-- Python's whitespace class `\s` (and `str.strip`), ASCII fragment. -/
def pyIsSpace (c : Char) : Bool :=
  c == ' ' || c == '\t' || c == '\n' || c == '\r' || c == '\x0b' || c == '\x0c'

/-- Python's `\d` / `str.isdigit`, ASCII fragment. -/
def pyIsDigit (c : Char) : Bool :=
  '0' ≤ c && c ≤ '9'

/-- Python `str.strip()` on a character list. -/
def pyStrip (cs : List Char) : List Char :=
  ((cs.dropWhile pyIsSpace).reverse.dropWhile pyIsSpace).reverse

/-- Python `str.isdigit()`: nonempty and all digits. -/
def pyIsDigitStr (cs : List Char) : Bool :=
  !cs.isEmpty && cs.all pyIsDigit

/-- Python `int()` on a digit string. -/
def natOfDigits (cs : List Char) : ℕ :=
  cs.foldl (fun n c => 10 * n + (c.toNat - '0'.toNat)) 0

/-- Python's `round(q, 2)` modelled on exact rationals: scale by 100 and
round half to even. -/
def roundHalfEven (q : ℚ) : ℤ :=
  if q - ⌊q⌋ < 1 / 2 then ⌊q⌋
  else if 1 / 2 < q - ⌊q⌋ then ⌊q⌋ + 1
  else if ⌊q⌋ % 2 = 0 then ⌊q⌋ else ⌊q⌋ + 1

/-- The `round(x, 2)` of the source, on exact rationals. -/
def pyRound2 (q : ℚ) : ℚ :=
  (roundHalfEven (q * 100) : ℚ) / 100

/-- Python `text.split('\n')`. -/
def splitLines : List Char → List (List Char)
  | [] => [[]]
  | c :: rest =>
    if c = '\n' then [] :: splitLines rest
    else
      match splitLines rest with
      | l :: ls => (c :: l) :: ls
      | [] => [[c]]

/-- One step of `re.split(r'\s\x7b2,\x7d', line)`: `cur` is the current segment
(reversed) and `ws` the pending whitespace run (reversed); a run of two or
more whitespace characters separates segments, a shorter run stays inside
the segment. -/
def splitWs2Go : List Char → List Char → List Char → List (List Char)
  | [], cur, ws =>
    if 2 ≤ ws.length then [cur.reverse, []]
    else [(ws ++ cur).reverse]
  | c :: rest, cur, ws =>
    if pyIsSpace c then splitWs2Go rest cur (c :: ws)
    else if 2 ≤ ws.length then cur.reverse :: splitWs2Go rest [c] []
    else splitWs2Go rest (c :: (ws ++ cur)) []

/-- The split `re.split(r'\s\x7b2,\x7d', line)`: split on runs of 2+ whitespace characters. -/
def splitWs2 (cs : List Char) : List (List Char) :=
  splitWs2Go cs [] []

/-- Consume a case-sensitive literal, returning the rest of the input. -/
def consumeLit : List Char → List Char → Option (List Char)
  | [], cs => some cs
  | _ :: _, [] => none
  | p :: ps, c :: cs => if c == p then consumeLit ps cs else none

/-- Consume a literal case-insensitively (the literal is given lowercase). -/
def consumeLitCI : List Char → List Char → Option (List Char)
  | [], cs => some cs
  | _ :: _, [] => none
  | p :: ps, c :: cs => if c.toLower == p then consumeLitCI ps cs else none

/-- Consume `\s+` followed by a token that cannot start with whitespace:
greedily take the maximal whitespace run (at least one character). -/
def consumeWsPlus : List Char → Option (List Char)
  | [] => none
  | c :: cs => if pyIsSpace c then some (cs.dropWhile pyIsSpace) else none

/-- Consume `(\d+)` (maximal, at least one digit) returning its `int()` value. -/
def digitsPlus (cs : List Char) : Option (ℕ × List Char) :=
  let ds := cs.takeWhile pyIsDigit
  if ds.isEmpty then none
  else some (natOfDigits ds, cs.dropWhile pyIsDigit)

/-- Consume `([\d.]+)` (maximal, at least one character) returning its text. -/
def digitDotPlus (cs : List Char) : Option (List Char × List Char) :=
  let ds := cs.takeWhile fun c => pyIsDigit c || c == '.'
  if ds.isEmpty then none
  else some (ds, cs.dropWhile fun c => pyIsDigit c || c == '.')

/-- The alternation `(TH|PR|TU|ESH)` of the row pattern, alternatives tried
left to right (they are pairwise non-overlapping literals). -/
def typeAlt (cs : List Char) : Option (List Char × List Char) :=
  match consumeLit "TH".toList cs with
  | some r => some ("TH".toList, r)
  | none =>
    match consumeLit "PR".toList cs with
    | some r => some ("PR".toList, r)
    | none =>
      match consumeLit "TU".toList cs with
      | some r => some ("TU".toList, r)
      | none =>
        match consumeLit "ESH".toList cs with
        | some r => some ("ESH".toList, r)
        | none => none

/-- The part of the row pattern after the lazy subject group:
`\s+(TH|PR|TU|ESH)\s+(\d+)\s+(\d+)\s+([\d.]+)`.  Every quantifier here is
followed by a disjoint character class, so matching is deterministic. -/
def rowTail (cs : List Char) : Option (List Char × ℕ × ℕ × List Char) :=
  (consumeWsPlus cs).bind fun cs1 =>
  (typeAlt cs1).bind fun ty =>
  (consumeWsPlus ty.2).bind fun cs3 =>
  (digitsPlus cs3).bind fun pr =>
  (consumeWsPlus pr.2).bind fun cs5 =>
  (digitsPlus cs5).bind fun tt =>
  (consumeWsPlus tt.2).bind fun cs7 =>
  (digitDotPlus cs7).map fun pc => (ty.1, pr.1, tt.1, pc.1)

/-- The search `re.search(r'^\s*\d+\s+(.+?)\s+(TH|PR|TU|ESH)\s+(\d+)\s+(\d+)\s+([\d.]+)', line)`.
The `^` anchor makes search equal to a match at the start.  `\s*\d+` is
deterministic; the `\s+` before the subject group backtracks from the longest
run down, and inside each choice the lazy group `(.+?)` grows from one
character up (`.` excludes newline), exactly the order of the `re` engine.
Returns (subject capture, type, present, total, percentage text). -/
def rowRegexSearch (cs : List Char) : Option (List Char × List Char × ℕ × ℕ × List Char) :=
  (digitsPlus (cs.dropWhile pyIsSpace)).bind fun d =>
  let cs1 := d.2
  let w := (cs1.takeWhile pyIsSpace).length
  ((List.range w).map fun i => w - i).findSome? fun k =>
    let afterWs := cs1.drop k
    ((List.range afterWs.length).map fun e => e + 1).findSome? fun e =>
      let cap := afterWs.take e
      if cap.all fun c => c != '\n' then
        (rowTail (afterWs.drop e)).map fun r => (cap, r)
      else none

/-- A row of the `subjects` list: the source's
`{"Subject": …, "Type": …, "Present": …, "Total": …, "Percentage": …}`. -/
structure SubjectRow where
  subject : String
  stype : String
  present : ℕ
  total : ℕ
  percentage : ℚ
  deriving DecidableEq

/-- The overall block `{"Present": …, "Total": …, "Percentage": …}`. -/
structure OverallSummary where
  present : ℕ
  total : ℕ
  percentage : ℚ
  deriving DecidableEq

/-- The dictionary returned by `extract_attendance_data`. -/
structure AttendanceRecord where
  student_name : String
  subjects : List SubjectRow
  overall : OverallSummary
  deriving DecidableEq

/-- The `_get_empty_result()` structure from the source. -/
def get_empty_result : AttendanceRecord :=
  { student_name := "Unknown"
    subjects := []
    overall := { present := 0, total := 0, percentage := 0 } }

/-- The full match `re.match(r'^(TH|PR|TU|ESH)$', s)` used on stripped parts. -/
def isTypeTok (cs : List Char) : Bool :=
  cs == "TH".toList || cs == "PR".toList || cs == "TU".toList || cs == "ESH".toList

/-- Python `" ".join(parts)`. -/
def joinSpace : List (List Char) → List Char
  | [] => []
  | [p] => p
  | p :: ps => p ++ ' ' :: joinSpace ps

/-- The source's scan `for j in range(type_index + 1, len(parts))`, applied to
`parts[type_index+1:]`: the first index `j` whose part is a digit string and
whose successor part is also a digit string yields (present, total); a digit
part without a digit successor is passed over without emitting a row. -/
def findPresTotal : List (List Char) → Option (ℕ × ℕ)
  | p :: q :: rest =>
    if pyIsDigitStr (pyStrip p) then
      if pyIsDigitStr (pyStrip q) then
        some (natOfDigits (pyStrip p), natOfDigits (pyStrip q))
      else findPresTotal (q :: rest)
    else findPresTotal (q :: rest)
  | _ => none

/-- The token-split tier of the source: given `parts = re.split(r'\s\x7b2,\x7d', line)`,
the LAST part equal to one of TH/PR/TU/ESH (after strip) is the subject type
(the source's loop overwrites without break); `parts.index` then finds the
FIRST part equal to that value (a `ValueError`, impossible for pre-stripped
lines, would skip the line); `parts[1:type_index]` joined by single spaces and
stripped is the subject; present/total come from the first adjacent digit
pair after the type; the percentage is recomputed, `0` when total is `0`. -/
def tokenPartsRow (parts : List (List Char)) : Option SubjectRow :=
  match (parts.filter fun p => isTypeTok (pyStrip p)).getLast? with
  | none => none
  | some tyPart =>
    let ty := pyStrip tyPart
    match parts.findIdx? fun p => p == ty with
    | none => none
    | some type_index =>
      let subject_parts := (parts.drop 1).take (type_index - 1)
      let subject_name := pyStrip (joinSpace subject_parts)
      match findPresTotal (parts.drop (type_index + 1)) with
      | none => none
      | some pt =>
        some { subject := String.mk subject_name
               stype := String.mk ty
               present := pt.1
               total := pt.2
               percentage :=
                 if 0 < pt.2 then pyRound2 ((pt.1 : ℚ) / pt.2 * 100) else 0 }

/-- The structured regex tier as a standalone function: a row built from the
captures of the row pattern, subject and type stripped, the percentage
recomputed from present/total (the captured percentage text is discarded),
`0` when total is `0`. -/
def regexTierRow (line : List Char) : Option SubjectRow :=
  (rowRegexSearch line).map fun m =>
    { subject := String.mk (pyStrip m.1)
      stype := String.mk (pyStrip m.2.1)
      present := m.2.2.1
      total := m.2.2.2.1
      percentage :=
        if 0 < m.2.2.2.1 then pyRound2 ((m.2.2.1 : ℚ) / m.2.2.2.1 * 100) else 0 }

/-- The body of the source's per-line `try` block: split the line on runs of
2+ whitespace; if that yields fewer than 4 parts, attempt the structured
regex (appending its row on success); afterwards, the token-split processing
runs only when the split yielded at least 5 parts. -/
def parseDataLine (line : List Char) : Option SubjectRow :=
  let parts := splitWs2 line
  if parts.length < 4 then
    match rowRegexSearch line with
    | some m =>
      some { subject := String.mk (pyStrip m.1)
             stype := String.mk (pyStrip m.2.1)
             present := m.2.2.1
             total := m.2.2.2.1
             percentage :=
               if 0 < m.2.2.2.1 then pyRound2 ((m.2.2.1 : ℚ) / m.2.2.2.1 * 100)
               else 0 }
    | none => if 5 ≤ parts.length then tokenPartsRow parts else none
  else if 5 ≤ parts.length then tokenPartsRow parts else none

/-- The summary-row test
`re.match(r'^\s*(theory|practical|tutorial|total|note)\s*', line, re.IGNORECASE)`:
after leading whitespace the line continues with one of the five words,
case-insensitively (the trailing `\s*` always matches). -/
def leadsWith : List Char → List Char → Bool
  | [], _ => true
  | _ :: _, [] => false
  | p :: ps, c :: cs => p == c && leadsWith ps cs

/-- Whether a line stops the table scan (the source's summary-row break). -/
def isSummaryLine (line : List Char) : Bool :=
  let low := (line.dropWhile pyIsSpace).map Char.toLower
  ["theory", "practical", "tutorial", "total", "note"].any fun w =>
    leadsWith w.toList low

/-- The subject-row loop of the source over `lines[start_idx:]`: strip each
line, skip blank lines, stop at the first summary row, otherwise append the
row the per-line parser produces (if any). -/
def collectRows : List (List Char) → List SubjectRow
  | [] => []
  | raw :: rest =>
    let line := pyStrip raw
    if line.isEmpty then collectRows rest
    else if isSummaryLine line then []
    else
      match parseDataLine line with
      | some row => row :: collectRows rest
      | none => collectRows rest

/-- Consume a sequence of case-insensitive literals separated by `\s*`
(each literal starts with a non-whitespace character, so the greedy `\s*`
is deterministic). -/
def consumeLitsCI : List (List Char) → List Char → Option (List Char)
  | [], cs => some cs
  | [l], cs => consumeLitCI l cs
  | l :: ls, cs =>
    match consumeLitCI l cs with
    | none => none
    | some cs1 => consumeLitsCI ls (cs1.dropWhile pyIsSpace)

/-- Match one student-name pattern `LIT(\s*LIT)*\s*:\s*([^(]+)` at the start
of `cs` (case-insensitive).  After the colon the greedy `\s*` backtracks from
the longest whitespace run down to none, and at each choice the greedy
capture `([^(]+)` takes the maximal run of non-`(` characters, which must be
nonempty — exactly the `re` engine's order (so when the run after the colon
is followed by `(`, the capture degenerates to trailing whitespace). -/
def nameCapAt (lits : List (List Char)) (cs : List Char) : Option (List Char) :=
  match consumeLitsCI lits cs with
  | none => none
  | some cs1 =>
    match cs1.dropWhile pyIsSpace with
    | ':' :: cs3 =>
      let w := (cs3.takeWhile pyIsSpace).length
      ((List.range (w + 1)).map fun i => w - i).findSome? fun k =>
        let cap := (cs3.drop k).takeWhile fun c => c != '('
        if cap.isEmpty then none else some cap
    | _ => none

/-- The `re.search` of a student-name pattern: leftmost position wins. -/
def nameSearch (lits : List (List Char)) : List Char → Option (List Char)
  | [] => none
  | c :: rest =>
    match nameCapAt lits (c :: rest) with
    | some cap => some cap
    | none => nameSearch lits rest

/-- The student-name extraction of the source: the three patterns
`Self Attendance Report\s*:\s*([^(]+)`, `Student\s*Name\s*:\s*([^(]+)` and
`Name\s*:\s*([^(]+)` are tried in order (IGNORECASE); the first match's
capture, stripped, is the name, else "Unknown". -/
def extractStudentName (text : List Char) : String :=
  match nameSearch ["self attendance report".toList] text with
  | some cap => String.mk (pyStrip cap)
  | none =>
    match nameSearch ["student".toList, "name".toList] text with
    | some cap => String.mk (pyStrip cap)
    | none =>
      match nameSearch ["name".toList] text with
      | some cap => String.mk (pyStrip cap)
      | none => "Unknown"

/-- Consume a chain of case-insensitive literals separated by `\s+`. -/
def chainWsPlusCI : List (List Char) → List Char → Option (List Char)
  | [], cs => some cs
  | [l], cs => consumeLitCI l cs
  | l :: ls, cs =>
    match consumeLitCI l cs with
    | none => none
    | some cs1 =>
      match consumeWsPlus cs1 with
      | none => none
      | some cs2 => chainWsPlusCI ls cs2

/-- Boolean `re.search`: does `f` match at some position of the input? -/
def searchBool (f : List Char → Bool) : List Char → Bool
  | [] => f []
  | c :: rest => f (c :: rest) || searchBool f rest

/-- Table-header pattern 1: `SrNo\s+Subject\s+Subject\s+Type\s+Present\s+Total`
(IGNORECASE, searched anywhere in the line). -/
def startPat1 (line : List Char) : Bool :=
  searchBool
    (fun s =>
      (chainWsPlusCI ["srno".toList, "subject".toList, "subject".toList,
        "type".toList, "present".toList, "total".toList] s).isSome)
    line

/-- The suffix `Present\s+Total` of header pattern 2. -/
def presentTotalAt (s : List Char) : Bool :=
  (match consumeLitCI "present".toList s with
   | none => none
   | some s1 =>
     match consumeWsPlus s1 with
     | none => none
     | some s2 => consumeLitCI "total".toList s2).isSome

/-- Greedy `.*` followed by a predicate: some split position (not crossing a
newline, which `.` does not match) satisfies the continuation. -/
def dotStarThen (p : List Char → Bool) : List Char → Bool
  | [] => p []
  | c :: rest => p (c :: rest) || (c != '\n' && dotStarThen p rest)

/-- Both ways the optional `\.?` can match. -/
def optDot (cs : List Char) : List (List Char) :=
  match cs with
  | '.' :: rest => [rest, '.' :: rest]
  | _ => [cs]

/-- Header pattern 2 matched at the start of a suffix:
`Sr\.?\s*No\.?\s+Subject\s+.*Present\s+Total` (IGNORECASE). -/
def startPat2At (cs : List Char) : Bool :=
  match consumeLitCI "sr".toList cs with
  | none => false
  | some cs1 =>
    (optDot cs1).any fun cs2 =>
      match consumeLitCI "no".toList (cs2.dropWhile pyIsSpace) with
      | none => false
      | some cs3 =>
        (optDot cs3).any fun cs4 =>
          match consumeWsPlus cs4 with
          | none => false
          | some cs5 =>
            match consumeLitCI "subject".toList cs5 with
            | none => false
            | some cs6 =>
              match consumeWsPlus cs6 with
              | none => false
              | some cs7 => dotStarThen presentTotalAt cs7

/-- Table-header pattern 2, searched anywhere in the line. -/
def startPat2 (line : List Char) : Bool :=
  searchBool startPat2At line

/-- Table-header pattern 3: `Subject\s+Type\s+Present\s+Total` (IGNORECASE). -/
def startPat3 (line : List Char) : Bool :=
  searchBool
    (fun s =>
      (chainWsPlusCI ["subject".toList, "type".toList, "present".toList,
        "total".toList] s).isSome)
    line

/-- The header search of the source: for each pattern in order, the first
line matching it fixes `start_idx` to that line's index plus one; if no
pattern matches any line, `start_idx` stays `0` (the scan then starts at the
first line). -/
def findStartIdx (lines : List (List Char)) : ℕ :=
  match lines.findIdx? startPat1 with
  | some i => i + 1
  | none =>
    match lines.findIdx? startPat2 with
    | some i => i + 1
    | none =>
      match lines.findIdx? startPat3 with
      | some i => i + 1
      | none => 0

/-- One aggregate pattern `LIT\s+(\d+)\s+(\d+)\s+([\d.]+)` (case-sensitive)
matched at the start of a suffix; every quantifier is followed by a disjoint
class, so matching is deterministic. -/
def overallAt (lit : List Char) (cs : List Char) : Option (ℕ × ℕ × List Char) :=
  (consumeLit lit cs).bind fun cs1 =>
  (consumeWsPlus cs1).bind fun cs2 =>
  (digitsPlus cs2).bind fun pr =>
  (consumeWsPlus pr.2).bind fun cs4 =>
  (digitsPlus cs4).bind fun tt =>
  (consumeWsPlus tt.2).bind fun cs6 =>
  (digitDotPlus cs6).map fun pc => (pr.1, tt.1, pc.1)

/-- The `re.search` of one aggregate pattern over the whole text (leftmost). -/
def overallSearchLit (lit : List Char) : List Char → Option (ℕ × ℕ × List Char)
  | [] => none
  | c :: rest =>
    match overallAt lit (c :: rest) with
    | some r => some r
    | none => overallSearchLit lit rest

/-- The aggregate search of the source: `Total\s+(\d+)\s+(\d+)\s+([\d.]+)`
first, then `Overall\s+(\d+)\s+(\d+)\s+([\d.]+)` (both case-sensitive,
searched over the full text, where `\s` also matches newlines). -/
def searchOverall (cs : List Char) : Option (ℕ × ℕ × List Char) :=
  match overallSearchLit "Total".toList cs with
  | some r => some r
  | none => overallSearchLit "Overall".toList cs

/-- Python `float()` restricted to strings drawn from `[\d.]+`: defined (and
exact) iff the string has at least one digit and at most one dot; a string
like "..." raises `ValueError` in the source, modelled as `none`. -/
def pyFloatDigitsDot (cs : List Char) : Option ℚ :=
  if cs.any pyIsDigit && (cs.filter fun c => c == '.').length ≤ 1 then
    let ip := cs.takeWhile fun c => c != '.'
    let rest := cs.dropWhile fun c => c != '.'
    match rest with
    | [] => some (natOfDigits ip : ℚ)
    | _ :: frac => some ((natOfDigits ip : ℚ) + (natOfDigits frac : ℚ) / 10 ^ frac.length)
  else none

/-- Embedding of `extract_attendance_data` from `src/utils/pdf_extractor.py`,
from the point where the PDF text has been assembled.  Empty or
whitespace-only text returns the empty result; otherwise the student name,
the subject rows (scanned from the line after the detected table header) and
the overall block are extracted.  If an aggregate line matches, its
present/total are used verbatim and its percentage text goes through
`float()` — whose `ValueError` propagates to the outermost handler, i.e.
yields the empty result; otherwise the overall block is summed from the
rows, with the percentage recomputed (`0` when the total is `0`). -/
def extract_attendance_data (text : String) : AttendanceRecord :=
  let cs := text.toList
  if cs.all pyIsSpace then get_empty_result
  else
    let student_name := extractStudentName cs
    let lines := splitLines cs
    let data := collectRows (lines.drop (findStartIdx lines))
    match searchOverall cs with
    | some m =>
      match pyFloatDigitsDot m.2.2 with
      | some pct =>
        { student_name := student_name
          subjects := data
          overall := { present := m.1, total := m.2.1, percentage := pct } }
      | none => get_empty_result
    | none =>
      let total_present := (data.map fun r => r.present).sum
      let total_classes := (data.map fun r => r.total).sum
      { student_name := student_name
        subjects := data
        overall :=
          { present := total_present
            total := total_classes
            percentage :=
              if 0 < total_classes then
                pyRound2 ((total_present : ℚ) / total_classes * 100)
              else 0 } }

/-- C5: for `present ≥ 0`, `total > 0` with current percentage strictly below a
target strictly below 100, `calculate_classes_needed` returns
`⌈(target*total - 100*present)/(100 - target)⌉` when that value lies in
`[0, 1000]` and `0` when it is negative or exceeds `1000`; in particular the
worked examples `(70, 100, 75) ↦ 20` and `(10, 100, 75) ↦ 260` hold. -/
theorem classes_needed_formula :
    (∀ (p t : ℕ) (tgt : ℚ), 0 < t → (p : ℚ) / t * 100 < tgt → tgt < 100 →
      calculate_classes_needed p t tgt =
        if ⌈(tgt * t - 100 * p) / (100 - tgt)⌉ < 0 ∨
            1000 < ⌈(tgt * t - 100 * p) / (100 - tgt)⌉
        then ClassesNeeded.count 0
        else ClassesNeeded.count ⌈(tgt * t - 100 * p) / (100 - tgt)⌉) ∧
    calculate_classes_needed 70 100 75 = ClassesNeeded.count 20 ∧
    calculate_classes_needed 10 100 75 = ClassesNeeded.count 260 := by
  refine ⟨?_, by norm_num [calculate_classes_needed],
    by norm_num [calculate_classes_needed]⟩
  intro p t tgt ht hbelow htgt
  simp only [calculate_classes_needed]
  rw [if_neg (by omega : ¬ t = 0), if_neg (not_le.mpr hbelow),
    if_neg (by rintro ⟨h, -⟩; exact absurd h (ne_of_lt htgt)),
    if_neg (by rw [sub_eq_zero]; intro h; exact absurd h.symm (ne_of_lt htgt))]

/-- Witness for `classes_needed_formula` at `(70, 100, 75)`. -/
theorem classes_needed_formula_witness :
    0 < 100 ∧ ((70 : ℕ) : ℚ) / ((100 : ℕ) : ℚ) * 100 < 75 ∧ (75 : ℚ) < 100 ∧
      calculate_classes_needed 70 100 75 =
        (if ⌈((75 : ℚ) * ((100 : ℕ) : ℚ) - 100 * ((70 : ℕ) : ℚ)) / (100 - 75)⌉ < 0 ∨
            1000 < ⌈((75 : ℚ) * ((100 : ℕ) : ℚ) - 100 * ((70 : ℕ) : ℚ)) / (100 - 75)⌉
         then ClassesNeeded.count 0
         else ClassesNeeded.count
           ⌈((75 : ℚ) * ((100 : ℕ) : ℚ) - 100 * ((70 : ℕ) : ℚ)) / (100 - 75)⌉) :=
  ⟨by norm_num, by norm_num, by norm_num,
    classes_needed_formula.1 70 100 75 (by norm_num) (by norm_num) (by norm_num)⟩

/-- C7: with `total > 0`, `present < total` and target 100, the target is
unreachable and `calculate_classes_needed` returns the infinity sentinel. -/
theorem classes_needed_target_100_infinite :
    ∀ (p t : ℕ), p < t → calculate_classes_needed p t 100 = ClassesNeeded.infinite := by
  intro p t h
  have ht : (0 : ℚ) < t := by
    have : 0 < t := lt_of_le_of_lt (Nat.zero_le p) h
    exact_mod_cast this
  have hpct : (p : ℚ) / t * 100 < 100 := by
    have h1 : (p : ℚ) / t < 1 := (div_lt_one ht).mpr (by exact_mod_cast h)
    nlinarith
  simp only [calculate_classes_needed]
  rw [if_neg (by omega : ¬ t = 0), if_neg (not_le.mpr hpct)]
  simp [hpct]

/-- Witness for `classes_needed_target_100_infinite` at `(5, 10)`. -/
theorem classes_needed_target_100_infinite_witness :
    5 < 10 ∧ calculate_classes_needed 5 10 100 = ClassesNeeded.infinite :=
  ⟨by norm_num, classes_needed_target_100_infinite 5 10 (by norm_num)⟩

/-- C6: with `total > 0` and `upcoming_classes > 0`, `calculate_classes_can_miss`
returns `max 0 (min ⌊(present + upcoming) - target*(total + upcoming)/100⌋ upcoming)`
when the current percentage is at or above target, and `0` when it is below;
in particular `(80,100,75,10) ↦ 7`, `(75,100,75,10) ↦ 2` and `(70,100,75,10) ↦ 0`. -/
theorem classes_can_miss_formula :
    (∀ (p t : ℕ) (tgt : ℚ) (u : ℤ), 0 < t → 0 < u →
      (tgt ≤ (p : ℚ) / t * 100 →
        calculate_classes_can_miss p t tgt u =
          max 0 (min ⌊((p : ℚ) + u) - tgt * (((t : ℚ) + u)) / 100⌋ u)) ∧
      ((p : ℚ) / t * 100 < tgt → calculate_classes_can_miss p t tgt u = 0)) ∧
    calculate_classes_can_miss 80 100 75 10 = 7 ∧
    calculate_classes_can_miss 75 100 75 10 = 2 ∧
    calculate_classes_can_miss 70 100 75 10 = 0 := by
  refine ⟨?_, by norm_num [calculate_classes_can_miss],
    by norm_num [calculate_classes_can_miss],
    by norm_num [calculate_classes_can_miss]⟩
  intro p t tgt u ht hu
  constructor
  · intro hge
    simp only [calculate_classes_can_miss]
    rw [if_neg (by omega : ¬ t = 0), if_neg (not_lt.mpr hge),
      if_neg (not_le.mpr hu)]
  · intro hlt
    simp only [calculate_classes_can_miss]
    rw [if_neg (by omega : ¬ t = 0), if_pos hlt]

/-- Witness for `classes_can_miss_formula` at `(80, 100, 75, 10)`. -/
theorem classes_can_miss_formula_witness :
    0 < 100 ∧ (0 : ℤ) < 10 ∧ (75 : ℚ) ≤ ((80 : ℕ) : ℚ) / ((100 : ℕ) : ℚ) * 100 ∧
      calculate_classes_can_miss 80 100 75 10 =
        max 0 (min ⌊(((80 : ℕ) : ℚ) + (10 : ℤ)) -
          75 * ((((100 : ℕ) : ℚ) + (10 : ℤ))) / 100⌋ (10 : ℤ)) :=
  ⟨by norm_num, by norm_num, by norm_num,
    ((classes_can_miss_formula.1 80 100 75 10 (by norm_num) (by norm_num)).1
      (by norm_num))⟩

/-- C8: for all valid inputs (counts in `ℕ`, `upcoming ≥ 0`, target in `[0,100]`)
the value returned by `calculate_classes_can_miss` lies within `[0, upcoming]`,
across all four branches of the function. -/
theorem classes_can_miss_bounds :
    ∀ (p t : ℕ) (tgt : ℚ) (u : ℤ), 0 ≤ u → 0 ≤ tgt → tgt ≤ 100 →
      0 ≤ calculate_classes_can_miss p t tgt u ∧
        calculate_classes_can_miss p t tgt u ≤ u := by
  intro p t tgt u hu h0 h100
  simp only [calculate_classes_can_miss]
  split_ifs
  · exact ⟨hu, le_refl u⟩
  · exact ⟨le_refl 0, hu⟩
  · exact ⟨le_refl 0, hu⟩
  · exact ⟨le_max_left 0 _, max_le hu (min_le_right _ _)⟩

/-- Witness for `classes_can_miss_bounds` at `(80, 100, 75, 10)`. -/
theorem classes_can_miss_bounds_witness :
    (0 : ℤ) ≤ 10 ∧ (0 : ℚ) ≤ 75 ∧ (75 : ℚ) ≤ 100 ∧
      (0 ≤ calculate_classes_can_miss 80 100 75 10 ∧
        calculate_classes_can_miss 80 100 75 10 ≤ 10) :=
  ⟨by norm_num, by norm_num, by norm_num,
    classes_can_miss_bounds 80 100 75 10 (by norm_num) (by norm_num) (by norm_num)⟩

/-- C10: the division by `100 - target_percentage` in `calculate_classes_needed`
is never a division by zero: deleting the `ZeroDivisionError` handler branch
(`calculate_classes_needed_noCatch`) does not change the function on any input,
because every `target_percentage = 100` case already returned earlier. -/
theorem classes_needed_division_guard_unreachable :
    ∀ (p t : ℕ) (tgt : ℚ),
      calculate_classes_needed p t tgt = calculate_classes_needed_noCatch p t tgt := by
  intro p t tgt
  simp only [calculate_classes_needed, calculate_classes_needed_noCatch]
  split_ifs with h1 h2 h3 h4 h5 <;> try rfl
  all_goals
    exfalso
    have htgt : tgt = 100 := (sub_eq_zero.mp h4).symm
    exact h3 ⟨htgt, lt_of_not_le fun hle => h2 (htgt.le.trans hle)⟩

/-- Any row produced by the token-split tier carries a percentage recomputed
from its own present/total (0 when the total is 0). -/
theorem tokenPartsRow_percentage {parts : List (List Char)} {row : SubjectRow}
    (h : tokenPartsRow parts = some row) :
    row.percentage =
      if 0 < row.total then pyRound2 ((row.present : ℚ) / row.total * 100)
      else 0 := by
  simp only [tokenPartsRow] at h
  cases hg : (List.filter (fun p => isTypeTok (pyStrip p)) parts).getLast? with
  | none => rw [hg] at h; exact Option.noConfusion h
  | some tyPart =>
    simp only [hg] at h
    cases hi : List.findIdx? (fun p => p == pyStrip tyPart) parts with
    | none => rw [hi] at h; exact Option.noConfusion h
    | some type_index =>
      simp only [hi] at h
      cases hp : findPresTotal (List.drop (type_index + 1) parts) with
      | none => rw [hp] at h; exact Option.noConfusion h
      | some pt =>
        simp only [hp] at h
        injection h with h'
        subst h'
        rfl

/-- Any row produced by the per-line parser carries a percentage recomputed
from its own present/total (0 when the total is 0). -/
theorem parseDataLine_percentage {line : List Char} {row : SubjectRow}
    (h : parseDataLine line = some row) :
    row.percentage =
      if 0 < row.total then pyRound2 ((row.present : ℚ) / row.total * 100)
      else 0 := by
  simp only [parseDataLine] at h
  by_cases h4 : (splitWs2 line).length < 4
  · rw [if_pos h4] at h
    cases hr : rowRegexSearch line with
    | none =>
      rw [hr] at h
      by_cases h5 : 5 ≤ (splitWs2 line).length
      · rw [if_pos h5] at h
        exact tokenPartsRow_percentage h
      · rw [if_neg h5] at h
        exact Option.noConfusion h
    | some m =>
      rw [hr] at h
      injection h with h'
      subst h'
      rfl
  · rw [if_neg h4] at h
    by_cases h5 : 5 ≤ (splitWs2 line).length
    · rw [if_pos h5] at h
      exact tokenPartsRow_percentage h
    · rw [if_neg h5] at h
      exact Option.noConfusion h

/-- Every row collected by the table scan comes from the per-line parser. -/
theorem collectRows_mem {lines : List (List Char)} {row : SubjectRow}
    (h : row ∈ collectRows lines) : ∃ l, parseDataLine l = some row := by
  induction lines with
  | nil => simp [collectRows] at h
  | cons raw rest ih =>
    simp only [collectRows] at h
    by_cases he : (pyStrip raw).isEmpty = true
    · rw [if_pos he] at h
      exact ih h
    · rw [if_neg he] at h
      by_cases hs : isSummaryLine (pyStrip raw) = true
      · rw [if_pos hs] at h
        exact absurd h (List.not_mem_nil row)
      · rw [if_neg hs] at h
        cases hp : parseDataLine (pyStrip raw) with
        | none =>
          rw [hp] at h
          exact ih h
        | some r =>
          rw [hp] at h
          rcases List.mem_cons.mp h with h1 | h1
          · exact ⟨pyStrip raw, by rw [hp, h1]⟩
          · exact ih h1

/-- Every row in the subjects list of an extraction result comes from the
per-line parser. -/
theorem extract_subjects_mem {text : String} {row : SubjectRow}
    (h : row ∈ (extract_attendance_data text).subjects) :
    ∃ l, parseDataLine l = some row := by
  simp only [extract_attendance_data] at h
  by_cases hw : text.toList.all pyIsSpace = true
  · rw [if_pos hw] at h
    exact absurd h (List.not_mem_nil row)
  · rw [if_neg hw] at h
    cases ho : searchOverall text.toList with
    | some m =>
      simp only [ho] at h
      cases hf : pyFloatDigitsDot m.2.2 with
      | some pct =>
        simp only [hf] at h
        exact collectRows_mem h
      | none =>
        simp only [hf] at h
        exact absurd h (List.not_mem_nil row)
    | none =>
      simp only [ho] at h
      exact collectRows_mem h

/-- C1: extraction never fails outward: any whitespace-only (or empty) text
returns exactly the sentinel empty record, and so does structurally
unmatchable text; the function is total, so no exception escapes. -/
theorem extract_fail_soft_empty_record :
    (∀ text : String, text.toList.all pyIsSpace = true →
      extract_attendance_data text = get_empty_result) ∧
    extract_attendance_data "gibberish without structure" = get_empty_result := by
  constructor
  · intro text hws
    simp only [extract_attendance_data]
    rw [if_pos hws]
  · decide

/-- Witness for `extract_fail_soft_empty_record` on whitespace-only input. -/
theorem extract_fail_soft_empty_record_witness :
    ("  \n " : String).toList.all pyIsSpace = true ∧
      extract_attendance_data "  \n " = get_empty_result :=
  ⟨by decide, extract_fail_soft_empty_record.1 "  \n " (by decide)⟩

/-- C2 counterexample: a parsed row whose total is 0 is NOT discarded — the
extractor keeps it in the subjects list (with percentage 0). -/
theorem zero_total_row_kept_cex :
    (extract_attendance_data "1 MATH TH 5 0 0.0").subjects =
      [{ subject := "MATH", stype := "TH", present := 5, total := 0,
         percentage := 0 }] := by
  decide

/-- C2 amended: a parsed row with total 0 is kept, not discarded; such a row
always carries percentage 0 (and parsed totals are never negative, being
drawn from digit strings — the embedding types them as `ℕ`). -/
theorem zero_total_row_percentage_zero :
    ∀ (text : String) (row : SubjectRow),
      row ∈ (extract_attendance_data text).subjects → row.total = 0 →
        row.percentage = 0 := by
  intro text row hmem h0
  obtain ⟨l, hl⟩ := extract_subjects_mem hmem
  rw [parseDataLine_percentage hl, h0]
  simp

/-- Witness for `zero_total_row_percentage_zero`. -/
theorem zero_total_row_percentage_zero_witness :
    ({ subject := "MATH", stype := "TH", present := 5, total := 0,
        percentage := 0 } : SubjectRow) ∈
      (extract_attendance_data "1 MATH TH 5 0 0.0").subjects ∧
    ({ subject := "MATH", stype := "TH", present := 5, total := 0,
        percentage := 0 } : SubjectRow).total = 0 ∧
    ({ subject := "MATH", stype := "TH", present := 5, total := 0,
        percentage := 0 } : SubjectRow).percentage = 0 :=
  ⟨by decide, rfl,
    zero_total_row_percentage_zero "1 MATH TH 5 0 0.0" _ (by decide) rfl⟩

/-- C3 counterexample: with the aggregate line "Total 5 10 99" the returned
overall summary reports percentage 99, the figure printed in the source
text, not `round(5/10*100, 2) = 50` recomputed from present/total. -/
theorem overall_percentage_verbatim_cex :
    (extract_attendance_data "Total 5 10 99").overall.present = 5 ∧
    (extract_attendance_data "Total 5 10 99").overall.total = 10 ∧
    (extract_attendance_data "Total 5 10 99").overall.percentage = 99 ∧
    (99 : ℚ) ≠ pyRound2 (((5 : ℕ) : ℚ) / ((10 : ℕ) : ℚ) * 100) := by
  refine ⟨by decide, by decide, by decide, ?_⟩
  norm_num [pyRound2, roundHalfEven]

/-- C3 amended: whenever an explicit aggregate line matches, the returned
overall summary uses the matched present and total verbatim, and its
percentage is the figure parsed from the source text by `float()` — not
recomputed from present/total (an unparsable figure degrades the whole
extraction to the sentinel record). -/
theorem overall_from_aggregate_line_verbatim :
    ∀ (text : String) (p t : ℕ) (pcs : List Char) (q : ℚ),
      text.toList.all pyIsSpace = false →
      searchOverall text.toList = some (p, t, pcs) →
      pyFloatDigitsDot pcs = some q →
      (extract_attendance_data text).overall =
        { present := p, total := t, percentage := q } := by
  intro text p t pcs q hw ho hf
  simp only [extract_attendance_data]
  rw [if_neg (by rw [hw]; exact Bool.false_ne_true)]
  simp only [ho, hf]

/-- Witness for `overall_from_aggregate_line_verbatim`. -/
theorem overall_from_aggregate_line_verbatim_witness :
    ("Total 5 10 99" : String).toList.all pyIsSpace = false ∧
    searchOverall ("Total 5 10 99" : String).toList =
      some (5, 10, "99".toList) ∧
    pyFloatDigitsDot "99".toList = some 99 ∧
    (extract_attendance_data "Total 5 10 99").overall =
      { present := 5, total := 10, percentage := 99 } :=
  ⟨by decide, by decide, by decide,
    overall_from_aggregate_line_verbatim "Total 5 10 99" 5 10 "99".toList 99
      (by decide) (by decide) (by decide)⟩

/-- C4 counterexample: the line `"1  MATH  TH  5 0 0.0"` is parsable by the
structured regex tier, yet the extractor's per-line parser yields no row for
it (its 2+-whitespace split has exactly 4 tokens, so neither tier runs), and
at whole-extraction level the subjects list stays empty. -/
theorem tier_order_cex :
    regexTierRow ("1  MATH  TH  5 0 0.0".toList) =
      some { subject := "MATH", stype := "TH", present := 5, total := 0,
             percentage := 0 } ∧
    parseDataLine ("1  MATH  TH  5 0 0.0".toList) = none ∧
    (extract_attendance_data
        "SrNo Subject Subject Type Present Total\n1  MATH  TH  5 0 0.0").subjects =
      [] := by
  refine ⟨by decide, by decide, by decide⟩

/-- C4 amended: the extractor splits each data line on runs of 2+ whitespace
FIRST; the structured regex tier runs only when that split yields fewer than
4 tokens; the token-split tier's row extraction runs only when it yields at
least 5 tokens; a line whose split yields exactly 4 tokens yields no row
even when the regex tier could parse it. -/
theorem tier_order_token_split_first :
    ∀ line : List Char,
      ((splitWs2 line).length < 4 → parseDataLine line = regexTierRow line) ∧
      ((splitWs2 line).length = 4 → parseDataLine line = none) ∧
      (5 ≤ (splitWs2 line).length →
        parseDataLine line = tokenPartsRow (splitWs2 line)) := by
  intro line
  refine ⟨fun h4 => ?_, fun h4 => ?_, fun h5 => ?_⟩
  · simp only [parseDataLine, regexTierRow]
    rw [if_pos h4]
    cases hr : rowRegexSearch line with
    | none => simp [hr, if_neg (by omega : ¬ 5 ≤ (splitWs2 line).length)]
    | some m => simp [hr]
  · simp only [parseDataLine]
    rw [if_neg (by omega : ¬ (splitWs2 line).length < 4),
      if_neg (by omega : ¬ 5 ≤ (splitWs2 line).length)]
  · simp only [parseDataLine]
    rw [if_neg (by omega : ¬ (splitWs2 line).length < 4), if_pos h5]

/-- Witness for `tier_order_token_split_first`. -/
theorem tier_order_token_split_first_witness :
    (splitWs2 ("1 MATH TH 5 0 0.0".toList)).length < 4 ∧
    parseDataLine ("1 MATH TH 5 0 0.0".toList) =
      regexTierRow ("1 MATH TH 5 0 0.0".toList) :=
  ⟨by decide,
    (tier_order_token_split_first ("1 MATH TH 5 0 0.0".toList)).1 (by decide)⟩

/-- C9: every row in the subjects list of an extraction result with positive
total carries a percentage recomputed from its own present/total (both
parsing tiers construct it this way; the percentage printed in the source
line is never copied). -/
theorem row_percentage_recomputed :
    ∀ (text : String) (row : SubjectRow),
      row ∈ (extract_attendance_data text).subjects → 0 < row.total →
        row.percentage = pyRound2 ((row.present : ℚ) / row.total * 100) := by
  intro text row hmem ht
  obtain ⟨l, hl⟩ := extract_subjects_mem hmem
  rw [parseDataLine_percentage hl, if_pos ht]


/-- Witness for `row_percentage_recomputed`: extracting the single data line
"1 MATH TH 5 10 50.0" yields one row with total 10 whose percentage is the
recomputed `round(5/10*100, 2)`. -/
theorem row_percentage_recomputed_witness :
    ({ subject := "MATH", stype := "TH", present := 5, total := 10,
        percentage := pyRound2 (((5 : ℕ) : ℚ) / ((10 : ℕ) : ℚ) * 100) } : SubjectRow) ∈
      (extract_attendance_data "1 MATH TH 5 10 50.0").subjects ∧
    (0 : ℕ) < 10 ∧
    ({ subject := "MATH", stype := "TH", present := 5, total := 10,
        percentage := pyRound2 (((5 : ℕ) : ℚ) / ((10 : ℕ) : ℚ) * 100) } : SubjectRow).percentage =
      pyRound2 (((5 : ℕ) : ℚ) / ((10 : ℕ) : ℚ) * 100) := by
  have e1 : ("1 MATH TH 5 10 50.0" : String).toList.all pyIsSpace = false := by decide
  have e2 : splitLines ("1 MATH TH 5 10 50.0" : String).toList =
      [("1 MATH TH 5 10 50.0" : String).toList] := by decide
  have e3 : findStartIdx [("1 MATH TH 5 10 50.0" : String).toList] = 0 := by decide
  have e4 : searchOverall ("1 MATH TH 5 10 50.0" : String).toList = none := by decide
  have e5 : rowRegexSearch ("1 MATH TH 5 10 50.0" : String).toList =
      some ("MATH".toList, "TH".toList, 5, 10, "50.0".toList) := by decide
  have e6 : splitWs2 ("1 MATH TH 5 10 50.0" : String).toList =
      [("1 MATH TH 5 10 50.0" : String).toList] := by decide
  have e7 : pyStrip ("1 MATH TH 5 10 50.0" : String).toList =
      ("1 MATH TH 5 10 50.0" : String).toList := by decide
  have e8 : isSummaryLine ("1 MATH TH 5 10 50.0" : String).toList = false := by decide
  have e9 : ("1 MATH TH 5 10 50.0" : String).toList.isEmpty = false := by decide
  have hrow : parseDataLine ("1 MATH TH 5 10 50.0" : String).toList =
      some { subject := "MATH", stype := "TH", present := 5, total := 10,
             percentage := pyRound2 (((5 : ℕ) : ℚ) / ((10 : ℕ) : ℚ) * 100) } := by
    simp only [parseDataLine, e6, e5]
    norm_num
    exact ⟨by decide, by decide⟩
  have hsub : (extract_attendance_data "1 MATH TH 5 10 50.0").subjects =
      [{ subject := "MATH", stype := "TH", present := 5, total := 10,
         percentage := pyRound2 (((5 : ℕ) : ℚ) / ((10 : ℕ) : ℚ) * 100) }] := by
    simp only [extract_attendance_data]
    rw [if_neg (by rw [e1]; exact Bool.false_ne_true)]
    rw [e4]
    dsimp only []
    rw [e2, e3, List.drop_zero]
    dsimp only [collectRows]
    rw [e7]
    rw [if_neg (by rw [e9]; exact Bool.false_ne_true)]
    rw [if_neg (by rw [e8]; exact Bool.false_ne_true)]
    rw [hrow]
  have hmem : ({ subject := "MATH", stype := "TH", present := 5, total := 10,
                 percentage := pyRound2 (((5 : ℕ) : ℚ) / ((10 : ℕ) : ℚ) * 100) } :
        SubjectRow) ∈
      (extract_attendance_data "1 MATH TH 5 10 50.0").subjects := by
    rw [hsub]
    exact List.mem_singleton.mpr rfl
  exact ⟨hmem, by norm_num,
    row_percentage_recomputed "1 MATH TH 5 10 50.0" _ hmem (by norm_num)⟩
